import Mathlib

/-!
Verification of the Journal-AI frontend core (src/app.js).

The application is a browser client (class DailyLogApp) holding three
in-memory collections (logs, diaryEntries, tasks) plus next-id counters.
Operations combine local state updates with fetches to a backend and DOM
side effects.  We embed each operation as a pure function from the current
application state and the environment (server responses, oracle outcomes,
prompt/confirm dialog results) to a result record carrying the new state,
the toast messages shown, and the HTTP requests issued.  DOM-only actions
(hiding and showing elements, rendering lists) have no bearing on the
collections and are modelled only where a claim mentions them (the sort
orders used for rendering, the update-button eligibility hook).
-/

namespace JournalAI

/-- A log entry as produced by the backend and stored in `this.logs`. -/
structure LogEntry where
  id : Nat
  content : String
  timestamp : String
  wordCount : Nat
deriving DecidableEq

/-- A diary entry as stored in `this.diaryEntries`. -/
structure DiaryEntry where
  id : Nat
  date : String
  content : String
  createdAt : String
  lastUpdated : String
  logIds : List Nat
deriving DecidableEq

/-- A task as stored in `this.tasks`.  Extracted tasks additionally carry
server-side metadata (createdAt, date) which no operation in app.js reads;
manual tasks carry extractedAt.  We model the fields the code reads or
writes. -/
structure Task where
  id : Nat
  description : String
  completed : Bool
  priority : String
  sourceLogId : Option Nat
  extractedAt : String
deriving DecidableEq

/-- The mutable fields of DailyLogApp relevant to the collections
(constructor lines of app.js). -/
structure AppState where
  logs : List LogEntry
  diaryEntries : List DiaryEntry
  tasks : List Task
  nextLogId : Nat
  nextTaskId : Nat
  nextDiaryId : Nat
deriving DecidableEq

/-- DailyLogApp constructor: empty collections, all counters 1. -/
def initialState : AppState :=
  { logs := [], diaryEntries := [], tasks := [],
    nextLogId := 1, nextTaskId := 1, nextDiaryId := 1 }

/-- Toast severity, the second argument of showToast. -/
inductive ToastType where
  | success
  | error
deriving DecidableEq

/-- A showToast call: message and severity. -/
structure Toast where
  message : String
  ty : ToastType
deriving DecidableEq

/-- Result of one user-visible operation: the state afterwards, the toasts
shown, and the HTTP requests issued (in order). -/
structure OpResult where
  state : AppState
  toasts : List Toast
  requests : List String
deriving DecidableEq

/-- Characters removed by the JavaScript String.prototype.trim used on user
input (whitespace). -/
def isSpaceChar (c : Char) : Bool :=
  c = ' ' || c = '\t' || c = '\n' || c = '\r'

/-- Model of the JavaScript trim() applied to input values. -/
def jsTrim (s : String) : String :=
  String.mk (((s.data.dropWhile isSpaceChar).reverse.dropWhile isSpaceChar).reverse)

/-- Model of String(n).padStart(2, the zero character) from
generateTimestamp. -/
def padStart2 (s : String) : String :=
  if s.data.length < 2 then String.mk (List.replicate (2 - s.data.length) '0' ++ s.data) else s

/-- A two-digit zero-padded field of the timestamp. -/
def pad2 (n : Nat) : String := padStart2 (toString n)

/-- The wall-clock components read off `new Date()` in generateTimestamp:
getHours, getMinutes, getSeconds, getDate, getMonth()+1, getFullYear. -/
structure DateTime where
  hours : Nat
  minutes : Nat
  seconds : Nat
  day : Nat
  month : Nat
  year : Nat
deriving DecidableEq

/-- Ranges JavaScript Date accessors actually produce (getFullYear gives the
full 4-digit year for contemporary dates). -/
def validClock (d : DateTime) : Prop :=
  d.hours < 24 ∧ d.minutes < 60 ∧ d.seconds < 60 ∧
  1 ≤ d.day ∧ d.day ≤ 31 ∧ 1 ≤ d.month ∧ d.month ≤ 12 ∧
  1000 ≤ d.year ∧ d.year ≤ 9999

instance (d : DateTime) : Decidable (validClock d) := by
  unfold validClock
  infer_instance

/-- generateTimestamp (app.js lines 263-273): HHMMSSDDMMYYYY, the first five
fields padded to two digits, the year via String() unpadded. -/
def generateTimestamp (d : DateTime) : String :=
  pad2 d.hours ++ pad2 d.minutes ++ pad2 d.seconds ++ pad2 d.day ++ pad2 d.month ++
    toString d.year

/-- timestamp.substring(a, b) on the ranges used by formatTimestamp. -/
def jsSubstring (s : String) (a b : Nat) : String :=
  String.mk ((s.data.drop a).take (b - a))

/-- formatTimestamp (app.js lines 275-286): rejects empty or non-12-length
input, otherwise parses HHMMSSDDMMYY with a two-digit year displayed as
20YY. -/
def formatTimestamp (ts : String) : String :=
  if ts = "" ∨ ts.data.length ≠ 12 then "Invalid timestamp"
  else
    jsSubstring ts 6 8 ++ "/" ++ jsSubstring ts 8 10 ++ "/20" ++ jsSubstring ts 10 12 ++
      " at " ++ jsSubstring ts 0 2 ++ ":" ++ jsSubstring ts 2 4 ++ ":" ++ jsSubstring ts 4 6

/-- One GET response in loadData: the JSON body may lack the collection
field or the nextId field (modelled as none); a missing value falls back
through the JavaScript or-operator. A response that is not ok at all is
modelled as none at the outer level. -/
structure CollectionResponse (α : Type) where
  items : Option (List α)
  nextId : Option Nat
deriving DecidableEq

/-- The three backend responses consumed by loadData. -/
structure StoreState where
  logsResp : Option (CollectionResponse LogEntry)
  diaryResp : Option (CollectionResponse DiaryEntry)
  tasksResp : Option (CollectionResponse Task)

/-- data.nextId or 1 — the JavaScript or treats undefined and 0 as falsy. -/
def jsOrOne (n : Option Nat) : Nat :=
  match n with
  | some k => if k = 0 then 1 else k
  | none => 1

/-- data.collection or the empty array. -/
def jsOrNil {α : Type} (l : Option (List α)) : List α := l.getD []

/-- The fetches loadData performs, in order. -/
def loadDataRequests : List String :=
  ["GET /api/logs", "GET /api/diary", "GET /api/tasks"]

/-- loadData (app.js lines 48-77): each collection is refreshed from its
response when the response is ok, with or-fallbacks for missing fields;
a not-ok response leaves the previous value in place. -/
def loadData (s : AppState) (st : StoreState) : AppState :=
  let s1 :=
    match st.logsResp with
    | some r => { s with logs := jsOrNil r.items, nextLogId := jsOrOne r.nextId }
    | none => s
  let s2 :=
    match st.diaryResp with
    | some r => { s1 with diaryEntries := jsOrNil r.items, nextDiaryId := jsOrOne r.nextId }
    | none => s1
  match st.tasksResp with
  | some r => { s2 with tasks := jsOrNil r.items, nextTaskId := jsOrOne r.nextId }
  | none => s2

/-- handleLogChange (app.js lines 410-421): looks up whether a diary entry
exists for today and, if so, unhides the update button.  It returns the
eligibility bit and touches no collection. -/
def handleLogChange (s : AppState) (today : String) : Bool :=
  (s.diaryEntries.find? (fun entry => entry.date == today)).isSome

/-- The in-place `log.content = newContent.trim()` of editLog: the array
element found by find (the first with the given id) is mutated. -/
def setContentFirst (logId : Nat) (c : String) : List LogEntry → List LogEntry
  | [] => []
  | l :: ls =>
    if l.id = logId then { l with content := c } :: ls
    else l :: setContentFirst logId c ls

/-- editLog (app.js lines 364-378).  promptResult is the prompt() return
value (none when the user cancels).  An absent id, a cancelled prompt or an
empty trimmed content all fall through silently; otherwise only the found
log has its content replaced by the trimmed input. -/
def editLog (s : AppState) (logId : Nat) (promptResult : Option String) : OpResult :=
  match s.logs.find? (fun l => l.id == logId) with
  | none => { state := s, toasts := [], requests := [] }
  | some _ =>
    match promptResult with
    | none => { state := s, toasts := [], requests := [] }
    | some newContent =>
      if jsTrim newContent ≠ "" then
        { state := { s with logs := setContentFirst logId (jsTrim newContent) s.logs },
          toasts := [{ message := "Log updated successfully!", ty := ToastType.success }],
          requests := [] }
      else
        { state := s, toasts := [], requests := [] }

/-- deleteLog (app.js lines 380-408).  confirmed is the confirm() dialog
result; serverOk whether the DELETE succeeded.  Only after the server call
succeeds (or when the API is not connected) is the log filtered out. -/
def deleteLog (s : AppState) (logId : Nat) (confirmed apiConnected serverOk : Bool) :
    OpResult :=
  if confirmed = false then { state := s, toasts := [], requests := [] }
  else if apiConnected && !serverOk then
    { state := s,
      toasts := [{ message := "Failed to delete log: Failed to delete log from server",
                   ty := ToastType.error }],
      requests := ["DELETE /api/logs"] }
  else
    { state := { s with logs := s.logs.filter (fun l => l.id ≠ logId) },
      toasts := [{ message := "Log deleted successfully!", ty := ToastType.success }],
      requests := if apiConnected then ["DELETE /api/logs"] else [] }

/-- generateDiary (app.js lines 467-542).  oracleResp is the outcome of the
POST generate-diary round trip (error carries the thrown message); on
success the collections are reloaded from the server (loadData).  The two
flags only select the loading and toast texts. -/
def generateDiary (s : AppState) (apiConnected : Bool) (isRegenerate isIncremental : Bool)
    (oracleResp : Except String Unit) (st : StoreState) : OpResult :=
  if s.logs.length = 0 then
    { state := s,
      toasts := [{ message := "Add some logs first to generate a diary entry",
                   ty := ToastType.error }],
      requests := [] }
  else if apiConnected = false then
    { state := s,
      toasts := [{ message := "Backend server not available", ty := ToastType.error }],
      requests := [] }
  else
    match oracleResp with
    | Except.error msg =>
      { state := s,
        toasts := [{ message := "Failed to generate diary entry: " ++ msg,
                     ty := ToastType.error }],
        requests := ["POST /api/generate-diary"] }
    | Except.ok _ =>
      let actionText :=
        if isRegenerate then "regenerated" else if isIncremental then "updated" else "generated"
      { state := loadData s st,
        toasts := [{ message := "Diary entry " ++ actionText ++ " successfully!",
                     ty := ToastType.success }],
        requests := "POST /api/generate-diary" :: loadDataRequests }

/-- extractTasks (app.js lines 676-737).  oracleResp on success carries the
optional result.message used for the toast; on error the thrown message. -/
def extractTasks (s : AppState) (apiConnected : Bool) (onlyNew : Bool)
    (oracleResp : Except String (Option String)) (st : StoreState) : OpResult :=
  if s.logs.length = 0 then
    { state := s,
      toasts := [{ message := "Add some logs first to extract tasks", ty := ToastType.error }],
      requests := [] }
  else if apiConnected = false then
    { state := s,
      toasts := [{ message := "Backend server not available", ty := ToastType.error }],
      requests := [] }
  else
    match oracleResp with
    | Except.error msg =>
      { state := s,
        toasts := [{ message := "Failed to extract tasks: " ++ msg, ty := ToastType.error }],
        requests := ["POST /api/generate-tasks"] }
    | Except.ok m =>
      let msg :=
        match m with
        | some t => if t = "" then "Tasks extracted successfully!" else t
        | none => "Tasks extracted successfully!"
      { state := loadData s st,
        toasts := [{ message := msg, ty := ToastType.success }],
        requests := "POST /api/generate-tasks" :: loadDataRequests }

/-- addLog (app.js lines 297-362).  input is the textarea value; postResp
the POST logs round trip (ok carries result.log).  On success the log is
pushed, nextLogId becomes result.log.id + 1, and when the auto-diary or
auto-tasks checkboxes are set the corresponding generation runs. -/
def addLog (s : AppState) (input : String) (postResp : Except Unit LogEntry)
    (autoDiary autoTasks apiConnected : Bool)
    (oracleD : Except String Unit) (stD : StoreState)
    (oracleT : Except String (Option String)) (stT : StoreState) : OpResult :=
  let content := jsTrim input
  if content = "" then
    { state := s,
      toasts := [{ message := "Please enter some content for your log",
                   ty := ToastType.error }],
      requests := [] }
  else
    match postResp with
    | Except.error _ =>
      { state := s,
        toasts := [{ message := "Failed to add log entry", ty := ToastType.error }],
        requests := ["POST /api/logs"] }
    | Except.ok lg =>
      let s1 := { s with logs := s.logs ++ [lg], nextLogId := lg.id + 1 }
      let r1 : OpResult :=
        { state := s1,
          toasts := [{ message := "Log entry added successfully!", ty := ToastType.success }],
          requests := ["POST /api/logs"] }
      let r2 :=
        if autoDiary then
          let g := generateDiary r1.state apiConnected false true oracleD stD
          { state := g.state, toasts := r1.toasts ++ g.toasts,
            requests := r1.requests ++ g.requests }
        else r1
      if autoTasks then
        let e := extractTasks r2.state apiConnected true oracleT stT
        { state := e.state, toasts := r2.toasts ++ e.toasts,
          requests := r2.requests ++ e.requests }
      else r2

/-- addManualTask (app.js lines 795-825): purely local, no fetch at all. -/
def addManualTask (s : AppState) (input : String) (priority : String) (ts : String) :
    OpResult :=
  let description := jsTrim input
  if description = "" then
    { state := s,
      toasts := [{ message := "Please enter a task description", ty := ToastType.error }],
      requests := [] }
  else
    let task : Task :=
      { id := s.nextTaskId, description := description, completed := false,
        priority := priority, sourceLogId := none, extractedAt := ts }
    { state := { s with tasks := s.tasks ++ [task], nextTaskId := s.nextTaskId + 1 },
      toasts := [{ message := "Manual task added successfully!", ty := ToastType.success }],
      requests := [] }

/-- The JavaScript boolean-to-number coercion in the comparator
(a.completed - b.completed). -/
def boolToInt (b : Bool) : Int := if b then 1 else 0

/-- The priorityOrder lookup table of renderTasks;  a key outside the table
yields undefined in JavaScript (the data model restricts priorities to the
three keys, which the claim theorem assumes). -/
def priorityOrder (p : String) : Int :=
  if p = "High" then 3 else if p = "Medium" then 2 else if p = "Low" then 1 else 0

/-- The sort comparator of renderTasks (app.js lines 855-860). -/
def taskCmp (a b : Task) : Int :=
  if a.completed ≠ b.completed then boolToInt a.completed - boolToInt b.completed
  else priorityOrder b.priority - priorityOrder a.priority

/-- a sorts no later than b under the renderTasks comparator. -/
def taskLe (a b : Task) : Bool := decide (taskCmp a b ≤ 0)

/-- renderTasks (app.js lines 831-860) up to DOM output: the filter applied
to the task list followed by the comparator sort. -/
def renderTasksOrder (filter : String) (tasks : List Task) : List Task :=
  let filteredTasks :=
    if filter = "completed" then tasks.filter (fun task => task.completed)
    else if filter = "pending" then tasks.filter (fun task => !task.completed)
    else tasks
  filteredTasks.mergeSort taskLe

/-- renderLogs (app.js lines 438-441): newest first by descending
lexicographic comparison of timestamps. -/
def renderLogsOrder (logs : List LogEntry) : List LogEntry :=
  logs.mergeSort (fun a b => decide (¬ a.timestamp < b.timestamp))

/-! ### Decimal-digit characterisation of Nat.repr, for the timestamp claims -/

/-- The decimal digit characters of a number, most significant first. -/
def natChars (n : Nat) : List Char :=
  if n < 10 then [Nat.digitChar n]
  else natChars (n / 10) ++ [Nat.digitChar (n % 10)]
decreasing_by exact Nat.div_lt_self (by omega) (by omega)

theorem natChars_small {n : Nat} (h : n < 10) : natChars n = [Nat.digitChar n] := by
  rw [natChars, if_pos h]

theorem natChars_ge {n : Nat} (h : ¬ n < 10) :
    natChars n = natChars (n / 10) ++ [Nat.digitChar (n % 10)] := by
  conv_lhs => rw [natChars]
  rw [if_neg h]

theorem toDigitsCore_eq_natChars :
    ∀ (f n : Nat) (l : List Char), n < f →
      Nat.toDigitsCore 10 f n l = natChars n ++ l := by
  intro f
  induction f with
  | zero => intro n l h; omega
  | succ f ih =>
    intro n l h
    rw [Nat.toDigitsCore]
    by_cases h10 : n / 10 = 0
    · have hn : n < 10 := by omega
      rw [if_pos h10, Nat.mod_eq_of_lt hn, natChars_small hn]
      rfl
    · have h10x : ¬ n < 10 := by omega
      have hlt : n / 10 < f := by omega
      rw [if_neg h10, ih (n / 10) _ hlt, natChars_ge h10x, List.append_assoc]
      rfl

theorem toString_data (n : Nat) : (toString n).data = natChars n := by
  show (Nat.toDigits 10 n).asString.data = natChars n
  rw [Nat.toDigits, toDigitsCore_eq_natChars (n + 1) n [] (Nat.lt_succ_self n)]
  simp [List.asString]

theorem natChars_two {n : Nat} (h1 : 10 ≤ n) (h2 : n < 100) :
    natChars n = [Nat.digitChar (n / 10), Nat.digitChar (n % 10)] := by
  rw [natChars_ge (by omega), natChars_small (by omega)]
  rfl

theorem natChars_four {n : Nat} (h1 : 1000 ≤ n) (h2 : n < 10000) :
    natChars n = [Nat.digitChar (n / 1000), Nat.digitChar (n / 100 % 10),
                  Nat.digitChar (n / 10 % 10), Nat.digitChar (n % 10)] := by
  rw [natChars_ge (by omega), natChars_ge (by omega), natChars_ge (by omega),
    natChars_small (by omega)]
  have e1 : n / 10 / 10 = n / 100 := by omega
  rw [e1]
  have e2 : n / 100 / 10 = n / 1000 := by omega
  rw [e2]
  rfl

theorem pad2_data {n : Nat} (h : n < 100) :
    (pad2 n).data = [Nat.digitChar (n / 10), Nat.digitChar (n % 10)] := by
  by_cases h10 : n < 10
  · have hd : (toString n).data = [Nat.digitChar n] := (toString_data n).trans (natChars_small h10)
    show (padStart2 (toString n)).data = _
    rw [padStart2, if_pos (by rw [hd]; simp)]
    show List.replicate (2 - (toString n).data.length) '0' ++ (toString n).data = _
    rw [hd, Nat.div_eq_of_lt h10, Nat.mod_eq_of_lt h10]
    rfl
  · have hd : (toString n).data = [Nat.digitChar (n / 10), Nat.digitChar (n % 10)] :=
      (toString_data n).trans (natChars_two (by omega) h)
    show (padStart2 (toString n)).data = _
    rw [padStart2, if_neg (by rw [hd]; show ¬ (2 < 2); omega)]
    exact hd

theorem pad2_length {n : Nat} (h : n < 100) : (pad2 n).data.length = 2 := by
  rw [pad2_data h]
  rfl

theorem year_data_length {n : Nat} (h1 : 1000 ≤ n) (h2 : n < 10000) :
    (toString n).data.length = 4 := by
  rw [(toString_data n).trans (natChars_four h1 h2)]
  rfl

/-! ### Lexicographic order on character lists (the order behind String
comparison), specialised to the fixed-width digit fields -/

theorem char_cons_lt_cons {x y : Char} {xs ys : List Char} :
    (x :: xs) < (y :: ys) ↔ x < y ∨ (x = y ∧ xs < ys) := by
  constructor
  · intro h
    cases h with
    | cons h => exact Or.inr ⟨rfl, h⟩
    | rel h => exact Or.inl h
  · rintro (h | ⟨rfl, h⟩)
    · exact List.Lex.rel h
    · exact List.Lex.cons h

theorem char_nil_not_lt_nil : ¬ (([] : List Char) < []) := by
  intro h; cases h

theorem char_append_lt_append :
    ∀ (a b : List Char), a.length = b.length → ∀ (c d : List Char),
      (a ++ c) < (b ++ d) ↔ (a < b ∨ (a = b ∧ c < d)) := by
  intro a
  induction a with
  | nil =>
    intro b hb c d
    cases b with
    | cons y ys => simp at hb
    | nil =>
      constructor
      · intro h; exact Or.inr ⟨rfl, h⟩
      · rintro (h | ⟨_, h⟩)
        · exact absurd h char_nil_not_lt_nil
        · exact h
  | cons x xs ih =>
    intro b hb c d
    cases b with
    | nil => simp at hb
    | cons y ys =>
      simp only [List.length_cons, Nat.succ.injEq] at hb
      simp only [List.cons_append]
      rw [char_cons_lt_cons, char_cons_lt_cons, ih ys hb c d]
      constructor
      · rintro (h | ⟨rfl, h | ⟨rfl, h⟩⟩)
        · exact Or.inl (Or.inl h)
        · exact Or.inl (Or.inr ⟨rfl, h⟩)
        · exact Or.inr ⟨rfl, h⟩
      · rintro ((h | ⟨rfl, h⟩) | ⟨heq, h⟩)
        · exact Or.inl h
        · exact Or.inr ⟨rfl, Or.inl h⟩
        · injection heq with h1 h2
          subst h1; subst h2
          exact Or.inr ⟨rfl, Or.inr ⟨rfl, h⟩⟩

theorem digitChar_lt_iff : ∀ a < 10, ∀ b < 10, (Nat.digitChar a < Nat.digitChar b ↔ a < b) := by
  decide

theorem digitChar_inj : ∀ a < 10, ∀ b < 10, (Nat.digitChar a = Nat.digitChar b ↔ a = b) := by
  decide

theorem pad2_lt_iff {a b : Nat} (ha : a < 100) (hb : b < 100) :
    ((pad2 a).data < (pad2 b).data ↔ a < b) := by
  rw [pad2_data ha, pad2_data hb, char_cons_lt_cons, char_cons_lt_cons]
  rw [digitChar_lt_iff _ (by omega) _ (by omega), digitChar_inj _ (by omega) _ (by omega),
    digitChar_lt_iff _ (by omega) _ (by omega)]
  constructor
  · rintro (h | ⟨h1, h2 | ⟨h2, h3⟩⟩)
    · omega
    · omega
    · exact absurd h3 char_nil_not_lt_nil
  · intro h
    by_cases hd : a / 10 = b / 10
    · exact Or.inr ⟨hd, Or.inl (by omega)⟩
    · exact Or.inl (by omega)

theorem pad2_eq_iff {a b : Nat} (ha : a < 100) (hb : b < 100) :
    ((pad2 a).data = (pad2 b).data ↔ a = b) := by
  rw [pad2_data ha, pad2_data hb]
  constructor
  · intro h
    injection h with h1 h2
    injection h2 with h2 _
    rw [digitChar_inj _ (by omega) _ (by omega)] at h1
    rw [digitChar_inj _ (by omega) _ (by omega)] at h2
    omega
  · intro h; rw [h]

theorem string_lt_iff_data_lt (s t : String) : s < t ↔ s.data < t.data := by
  rw [String.lt_iff_toList_lt]
  rfl

theorem generateTimestamp_data (d : DateTime) :
    (generateTimestamp d).data =
      (pad2 d.hours).data ++ ((pad2 d.minutes).data ++ ((pad2 d.seconds).data ++
        ((pad2 d.day).data ++ ((pad2 d.month).data ++ (toString d.year).data)))) := by
  simp [generateTimestamp, List.append_assoc]

theorem generateTimestamp_data_length (d : DateTime) (h : validClock d) :
    (generateTimestamp d).data.length = 14 := by
  obtain ⟨h1, h2, h3, h4, h5, h6, h7, h8, h9⟩ := h
  rw [generateTimestamp_data]
  simp only [List.length_append]
  rw [pad2_length (by omega), pad2_length (by omega), pad2_length (by omega),
    pad2_length (by omega), pad2_length (by omega), year_data_length h8 (by omega)]

/-! ### Claim theorems -/

/-- Reusable reflexive instance of the edit frame relation. -/
theorem logFrame_refl (logId : Nat) (ls : List LogEntry) :
    List.Forall₂ (fun a b => a.id = b.id ∧ a.timestamp = b.timestamp ∧
      a.wordCount = b.wordCount ∧ (a.id ≠ logId → a = b)) ls ls :=
  List.forall₂_same.mpr (fun _ _ => ⟨rfl, rfl, rfl, fun _ => rfl⟩)

/-- setContentFirst only changes the content of the first log carrying the
edited id. -/
theorem setContentFirst_forall₂ (logId : Nat) (c : String) (ls : List LogEntry) :
    List.Forall₂ (fun a b => a.id = b.id ∧ a.timestamp = b.timestamp ∧
      a.wordCount = b.wordCount ∧ (a.id ≠ logId → a = b)) ls (setContentFirst logId c ls) := by
  induction ls with
  | nil => exact List.Forall₂.nil
  | cons l ls ih =>
    unfold setContentFirst
    by_cases h : l.id = logId
    · rw [if_pos h]
      exact List.Forall₂.cons ⟨rfl, rfl, rfl, fun hne => absurd h hne⟩ (logFrame_refl logId ls)
    · rw [if_neg h]
      exact List.Forall₂.cons ⟨rfl, rfl, rfl, fun _ => rfl⟩ ih

/-- C1: editLog, deleteLog and the handleLogChange hook never mutate any
DiaryEntry — every diary entry keeps its content, logIds, createdAt and
lastUpdated — and the hook only reports whether a diary entry exists for
today (the eligibility bit for a manual update). -/
theorem logChange_preserves_diary (s : AppState) (logId : Nat)
    (promptResult : Option String) (confirmed apiConnected serverOk : Bool)
    (today : String) :
    (editLog s logId promptResult).state.diaryEntries = s.diaryEntries ∧
    (deleteLog s logId confirmed apiConnected serverOk).state.diaryEntries = s.diaryEntries ∧
    (handleLogChange s today = true ↔ ∃ entry ∈ s.diaryEntries, entry.date = today) := by
  refine ⟨?_, ?_, ?_⟩
  · unfold editLog
    split
    · rfl
    · split
      · rfl
      · split
        · rfl
        · rfl
  · unfold deleteLog
    split
    · rfl
    · split
      · rfl
      · rfl
  · simp [handleLogChange, List.find?_isSome]

/-- C2: generating a diary when no logs exist makes no request at all,
changes no state, and reports the no-logs condition as an error toast. -/
theorem generateDiary_no_logs (s : AppState)
    (apiConnected isRegenerate isIncremental : Bool)
    (oracleResp : Except String Unit) (st : StoreState) (hlogs : s.logs = []) :
    generateDiary s apiConnected isRegenerate isIncremental oracleResp st =
      { state := s,
        toasts := [{ message := "Add some logs first to generate a diary entry",
                     ty := ToastType.error }],
        requests := [] } := by
  simp [generateDiary, hlogs]

/-- Witness for C2 at a concrete empty state. -/
theorem generateDiary_no_logs_witness :
    generateDiary initialState true false false (Except.ok ()) ⟨none, none, none⟩ =
      { state := initialState,
        toasts := [{ message := "Add some logs first to generate a diary entry",
                     ty := ToastType.error }],
        requests := [] } :=
  generateDiary_no_logs initialState true false false (Except.ok ()) ⟨none, none, none⟩ rfl

/-- C3: an input whose trimmed content is empty makes addLog report a
validation error toast and perform nothing: no log appended, no id
consumed, no request issued. -/
theorem addLog_empty_content (s : AppState) (input : String)
    (postResp : Except Unit LogEntry) (autoDiary autoTasks apiConnected : Bool)
    (oracleD : Except String Unit) (stD : StoreState)
    (oracleT : Except String (Option String)) (stT : StoreState)
    (h : jsTrim input = "") :
    addLog s input postResp autoDiary autoTasks apiConnected oracleD stD oracleT stT =
      { state := s,
        toasts := [{ message := "Please enter some content for your log",
                     ty := ToastType.error }],
        requests := [] } := by
  simp [addLog, h]

/-- Witness for C3 on a whitespace-only input. -/
theorem addLog_empty_content_witness :
    addLog initialState "   " (Except.ok ⟨1, "x", "t", 1⟩) true true true
        (Except.ok ()) ⟨none, none, none⟩ (Except.ok none) ⟨none, none, none⟩ =
      { state := initialState,
        toasts := [{ message := "Please enter some content for your log",
                     ty := ToastType.error }],
        requests := [] } :=
  addLog_empty_content initialState "   " (Except.ok ⟨1, "x", "t", 1⟩) true true true
    (Except.ok ()) ⟨none, none, none⟩ (Except.ok none) ⟨none, none, none⟩ (by decide)

/-- A one-log state used by concrete witnesses. -/
def sampleLog : LogEntry :=
  { id := 1, content := "hello", timestamp := "10000001012025", wordCount := 1 }

/-- A concrete state holding sampleLog and nothing else. -/
def sampleState : AppState :=
  { logs := [sampleLog], diaryEntries := [], tasks := [],
    nextLogId := 2, nextTaskId := 1, nextDiaryId := 1 }

/-- C4: when the oracle round trip fails, generateDiary and extractTasks
leave the whole state (collections and counters) untouched and report the
failure as an error toast. -/
theorem oracle_failure_no_commit (s : AppState)
    (isRegenerate isIncremental onlyNew : Bool) (msgD msgT : String)
    (stD stT : StoreState) (hlogs : s.logs.length ≠ 0) :
    (generateDiary s true isRegenerate isIncremental (Except.error msgD) stD).state = s ∧
    (generateDiary s true isRegenerate isIncremental (Except.error msgD) stD).toasts =
      [{ message := "Failed to generate diary entry: " ++ msgD, ty := ToastType.error }] ∧
    (extractTasks s true onlyNew (Except.error msgT) stT).state = s ∧
    (extractTasks s true onlyNew (Except.error msgT) stT).toasts =
      [{ message := "Failed to extract tasks: " ++ msgT, ty := ToastType.error }] := by
  refine ⟨?_, ?_, ?_, ?_⟩ <;> simp [generateDiary, extractTasks, hlogs]

/-- Witness for C4 at a concrete one-log state. -/
theorem oracle_failure_no_commit_witness :
    (generateDiary sampleState true false false (Except.error "boom")
        ⟨none, none, none⟩).state = sampleState ∧
    (generateDiary sampleState true false false (Except.error "boom")
        ⟨none, none, none⟩).toasts =
      [{ message := "Failed to generate diary entry: boom", ty := ToastType.error }] ∧
    (extractTasks sampleState true false (Except.error "down")
        ⟨none, none, none⟩).state = sampleState ∧
    (extractTasks sampleState true false (Except.error "down")
        ⟨none, none, none⟩).toasts =
      [{ message := "Failed to extract tasks: down", ty := ToastType.error }] := by
  have h := oracle_failure_no_commit sampleState false false false "boom" "down"
    ⟨none, none, none⟩ ⟨none, none, none⟩ (by decide)
  exact ⟨h.1, h.2.1.trans (by decide), h.2.2.1, h.2.2.2.trans (by decide)⟩

/-- C7 (amended): editing never alters any log id, timestamp or word count
and leaves every log with a different id fully unchanged; only the found
log may have its content replaced.  When the trimmed new content is empty
the operation silently does nothing — no state change and, contrary to the
claim as stated, no validation error is surfaced. -/
theorem editLog_frame (s : AppState) (logId : Nat) (c : String) :
    List.Forall₂ (fun a b => a.id = b.id ∧ a.timestamp = b.timestamp ∧
        a.wordCount = b.wordCount ∧ (a.id ≠ logId → a = b))
      s.logs (editLog s logId (some c)).state.logs ∧
    (editLog s logId (some c)).state.diaryEntries = s.diaryEntries ∧
    (editLog s logId (some c)).state.tasks = s.tasks ∧
    (editLog s logId (some c)).state.nextLogId = s.nextLogId ∧
    (editLog s logId (some c)).state.nextTaskId = s.nextTaskId ∧
    (editLog s logId (some c)).state.nextDiaryId = s.nextDiaryId ∧
    (jsTrim c = "" → editLog s logId (some c) = { state := s, toasts := [], requests := [] }) := by
  unfold editLog
  split
  · exact ⟨logFrame_refl logId s.logs, rfl, rfl, rfl, rfl, rfl, fun _ => rfl⟩
  · split
    · rename_i heq
      cases heq
    · rename_i nc heq
      cases heq
      split
      · rename_i hc
        exact ⟨setContentFirst_forall₂ logId (jsTrim c) s.logs, rfl, rfl, rfl, rfl, rfl,
          fun h0 => absurd h0 hc⟩
      · exact ⟨logFrame_refl logId s.logs, rfl, rfl, rfl, rfl, rfl, fun _ => rfl⟩

/-- Witness for C7 at a concrete edit. -/
theorem editLog_frame_witness :
    (editLog sampleState 1 (some "new text")).state.diaryEntries = sampleState.diaryEntries :=
  (editLog_frame sampleState 1 "new text").2.1

/-- C7 counterexample: on a whitespace-only edit of an existing log the code
reports nothing at all — no validation error toast is shown (the operation
is a silent no-op), refuting the claimed error report. -/
theorem editLog_no_validation_error_counterexample :
    editLog sampleState 1 (some " ") = { state := sampleState, toasts := [], requests := [] } := by
  decide

/-- C8: addManualTask never issues any request (so never invokes the
oracle); an empty trimmed description yields a validation error toast and
no change, and a non-empty one appends exactly one task with
sourceLogId = none, completed = false, the chosen priority and the next
task id. -/
theorem addManualTask_spec (s : AppState) (input priority ts : String) :
    (addManualTask s input priority ts).requests = [] ∧
    (jsTrim input = "" →
      addManualTask s input priority ts =
        { state := s,
          toasts := [{ message := "Please enter a task description", ty := ToastType.error }],
          requests := [] }) ∧
    (jsTrim input ≠ "" →
      (addManualTask s input priority ts).state =
        { s with
            tasks := s.tasks ++
              [{ id := s.nextTaskId, description := jsTrim input, completed := false,
                 priority := priority, sourceLogId := none, extractedAt := ts }],
            nextTaskId := s.nextTaskId + 1 } ∧
      (addManualTask s input priority ts).toasts =
        [{ message := "Manual task added successfully!", ty := ToastType.success }]) := by
  by_cases h : jsTrim input = "" <;> simp [addManualTask, h]

/-- Witness for C8 at a concrete non-empty description. -/
theorem addManualTask_spec_witness :
    (addManualTask initialState "buy milk" "High" "t").requests = [] ∧
    (addManualTask initialState "buy milk" "High" "t").state =
      { initialState with
          tasks := [{ id := 1, description := "buy milk", completed := false,
                      priority := "High", sourceLogId := none, extractedAt := "t" }],
          nextTaskId := 2 } := by
  have h := addManualTask_spec initialState "buy milk" "High" "t"
  exact ⟨h.1, ((h.2.2 (by decide)).1).trans (by decide)⟩

/-- A response in which the collection field and the nextId field are both
absent, or that failed entirely. -/
def respAbsent {α : Type} (r : Option (CollectionResponse α)) : Prop :=
  match r with
  | none => True
  | some cr => cr.items = none ∧ cr.nextId = none

/-- C9: loading from an empty or missing store, starting from the
constructor state, leaves all three collections empty and every next-id
counter at 1. -/
theorem loadData_empty_store (st : StoreState)
    (h1 : respAbsent st.logsResp) (h2 : respAbsent st.diaryResp)
    (h3 : respAbsent st.tasksResp) :
    (loadData initialState st).logs = [] ∧
    (loadData initialState st).diaryEntries = [] ∧
    (loadData initialState st).tasks = [] ∧
    (loadData initialState st).nextLogId = 1 ∧
    (loadData initialState st).nextDiaryId = 1 ∧
    (loadData initialState st).nextTaskId = 1 := by
  obtain ⟨lr, dr, tr⟩ := st
  cases lr <;> cases dr <;> cases tr <;>
    simp_all [loadData, respAbsent, jsOrNil, jsOrOne, initialState]

/-- Witness for C9 on the fully missing store. -/
theorem loadData_empty_store_witness :
    (loadData initialState ⟨none, none, none⟩).logs = [] ∧
    (loadData initialState ⟨none, none, none⟩).diaryEntries = [] ∧
    (loadData initialState ⟨none, none, none⟩).tasks = [] ∧
    (loadData initialState ⟨none, none, none⟩).nextLogId = 1 ∧
    (loadData initialState ⟨none, none, none⟩).nextDiaryId = 1 ∧
    (loadData initialState ⟨none, none, none⟩).nextTaskId = 1 :=
  loadData_empty_store ⟨none, none, none⟩ trivial trivial trivial

/-- Characterisation of the renderTasks comparator as a relation: a sorts
no later than b exactly when a is incomplete and b complete, or both are in
the same completion group and a has at least the priority rank of b. -/
theorem taskLe_true_iff (a b : Task) :
    taskLe a b = true ↔
      ((a.completed = false ∧ b.completed = true) ∨
       (a.completed = b.completed ∧ priorityOrder b.priority ≤ priorityOrder a.priority)) := by
  unfold taskLe taskCmp boolToInt
  cases ha : a.completed <;> cases hb : b.completed <;> simp [ha, hb] <;> omega

/-- The comparator order is total. -/
theorem taskLe_total (a b : Task) : taskLe a b || taskLe b a := by
  rw [Bool.or_eq_true, taskLe_true_iff, taskLe_true_iff]
  cases ha : a.completed <;> cases hb : b.completed <;> simp [ha, hb] <;> omega

/-- The comparator order is transitive. -/
theorem taskLe_trans (a b c : Task) : taskLe a b → taskLe b c → taskLe a c := by
  intro hab hbc
  rw [taskLe_true_iff] at hab hbc ⊢
  cases ha : a.completed <;> cases hb : b.completed <;> cases hc : c.completed <;>
    simp [ha, hb, hc] at hab hbc ⊢ <;> omega

/-- C5: for every filter and task list, the rendered order puts every
incomplete task before every completed one, and within a completion group
never puts a lower-priority task before a higher-priority one (High rank 3,
Medium 2, Low 1). -/
theorem renderTasks_ordering (filter : String) (tasks : List Task)
    (hvalid : ∀ t ∈ tasks,
      t.priority = "High" ∨ t.priority = "Medium" ∨ t.priority = "Low") :
    (renderTasksOrder filter tasks).Pairwise (fun a b =>
      (a.completed = false ∧ b.completed = true) ∨
      (a.completed = b.completed ∧ priorityOrder b.priority ≤ priorityOrder a.priority)) := by
  unfold renderTasksOrder
  refine List.Pairwise.imp ?_ (List.sorted_mergeSort taskLe_trans taskLe_total _)
  intro a b hab
  exact (taskLe_true_iff a b).mp hab

/-- Witness for C5 on a concrete mixed list. -/
theorem renderTasks_ordering_witness :
    (renderTasksOrder "all"
      [{ id := 1, description := "a", completed := true, priority := "Low",
         sourceLogId := none, extractedAt := "" },
       { id := 2, description := "b", completed := false, priority := "Medium",
         sourceLogId := none, extractedAt := "" },
       { id := 3, description := "c", completed := false, priority := "High",
         sourceLogId := some 1, extractedAt := "" }]).Pairwise (fun a b =>
      (a.completed = false ∧ b.completed = true) ∨
      (a.completed = b.completed ∧ priorityOrder b.priority ≤ priorityOrder a.priority)) :=
  renderTasks_ordering "all" _ (by decide)

/-- C6: generateTimestamp emits a 14-character fixed-width zero-padded
HHMMSSDDMMYYYY string, and for two instants on the same calendar date the
lexicographic string order agrees with chronological order of the time of
day (so the descending sort of renderLogs is reverse chronological within
a day). -/
theorem generateTimestamp_fixed_width_lex (d1 d2 : DateTime)
    (h1 : validClock d1) (h2 : validClock d2)
    (hday : d1.day = d2.day) (hmonth : d1.month = d2.month) (hyear : d1.year = d2.year) :
    (generateTimestamp d1).data.length = 14 ∧
    (generateTimestamp d2 < generateTimestamp d1 ↔
      d2.hours * 3600 + d2.minutes * 60 + d2.seconds <
        d1.hours * 3600 + d1.minutes * 60 + d1.seconds) := by
  refine ⟨generateTimestamp_data_length d1 h1, ?_⟩
  obtain ⟨a1, a2, a3, a4, a5, a6, a7, a8, a9⟩ := h1
  obtain ⟨b1, b2, b3, b4, b5, b6, b7, b8, b9⟩ := h2
  rw [string_lt_iff_data_lt, generateTimestamp_data, generateTimestamp_data,
    hday, hmonth, hyear]
  rw [char_append_lt_append (pad2 d2.hours).data (pad2 d1.hours).data
    (by rw [pad2_length (show d2.hours < 100 by omega),
            pad2_length (show d1.hours < 100 by omega)])]
  rw [char_append_lt_append (pad2 d2.minutes).data (pad2 d1.minutes).data
    (by rw [pad2_length (show d2.minutes < 100 by omega),
            pad2_length (show d1.minutes < 100 by omega)])]
  rw [char_append_lt_append (pad2 d2.seconds).data (pad2 d1.seconds).data
    (by rw [pad2_length (show d2.seconds < 100 by omega),
            pad2_length (show d1.seconds < 100 by omega)])]
  rw [pad2_lt_iff (show d2.hours < 100 by omega) (show d1.hours < 100 by omega),
    pad2_eq_iff (show d2.hours < 100 by omega) (show d1.hours < 100 by omega),
    pad2_lt_iff (show d2.minutes < 100 by omega) (show d1.minutes < 100 by omega),
    pad2_eq_iff (show d2.minutes < 100 by omega) (show d1.minutes < 100 by omega),
    pad2_lt_iff (show d2.seconds < 100 by omega) (show d1.seconds < 100 by omega),
    pad2_eq_iff (show d2.seconds < 100 by omega) (show d1.seconds < 100 by omega)]
  rw [iff_false_intro (lt_irrefl
    ((pad2 d2.day).data ++ ((pad2 d2.month).data ++ (toString d2.year).data)))]
  constructor
  · rintro (h | ⟨he, hm | ⟨hme, hs | ⟨hse, hf⟩⟩⟩)
    · omega
    · omega
    · omega
    · exact hf.elim
  · intro h
    rcases Nat.lt_trichotomy d2.hours d1.hours with hlt | heq | hgt
    · exact Or.inl hlt
    · refine Or.inr ⟨heq, ?_⟩
      rcases Nat.lt_trichotomy d2.minutes d1.minutes with mlt | meq | mgt
      · exact Or.inl mlt
      · exact Or.inr ⟨meq, Or.inl (by omega)⟩
      · exfalso; omega
    · exfalso; omega

/-- Witness for C6 at two concrete instants of one day. -/
theorem generateTimestamp_fixed_width_lex_witness :
    (generateTimestamp ⟨13, 5, 9, 1, 10, 2025⟩).data.length = 14 ∧
    (generateTimestamp ⟨12, 0, 0, 1, 10, 2025⟩ < generateTimestamp ⟨13, 5, 9, 1, 10, 2025⟩ ↔
      12 * 3600 + 0 * 60 + 0 < 13 * 3600 + 5 * 60 + 9) :=
  generateTimestamp_fixed_width_lex ⟨13, 5, 9, 1, 10, 2025⟩ ⟨12, 0, 0, 1, 10, 2025⟩
    (by decide) (by decide) rfl rfl rfl

/-- C10: formatTimestamp rejects every string generateTimestamp produces:
the generator emits 14 characters while the formatter demands exactly 12,
so the display round trip always yields the invalid-timestamp text. -/
theorem formatTimestamp_of_generateTimestamp (d : DateTime) (h : validClock d) :
    formatTimestamp (generateTimestamp d) = "Invalid timestamp" := by
  unfold formatTimestamp
  rw [if_pos (Or.inr (show (generateTimestamp d).data.length ≠ 12 by
    rw [generateTimestamp_data_length d h]; omega))]

/-- Witness for C10 at a concrete instant. -/
theorem formatTimestamp_of_generateTimestamp_witness :
    formatTimestamp (generateTimestamp ⟨12, 0, 0, 1, 10, 2025⟩) = "Invalid timestamp" :=
  formatTimestamp_of_generateTimestamp ⟨12, 0, 0, 1, 10, 2025⟩ (by decide)

end JournalAI
